import Mathlib

/-!
Verification development for the setupvar-builder repository.

The repository has two core stages, both embedded here from the source:

* `main.py`:
  - `parse_input_file`: line reassembly + the two whole-file validity checks
    (the extraction-mode marker on the first line, and the brace-token check).
  - `dict_population`: a stateful reducer that folds classified records into a
    nested settings model `store name -> offset -> entry`.
* `gui.py`:
  - `export_oneof` / `export_numeric` / `export_checkbox` / `write_script` /
    `export_script`: the script compiler that turns widget selections into
    `setup_var.efi` write directives.

Modelling conventions:
  - Python dicts are insertion-ordered association lists; assignment `d[k] = v`
    replaces an existing binding in place (keeping its position) or appends.
  - A setting entry is a Python dict whose keys vary by kind; it is modelled as
    a structure of `Option` fields, where `none` means "key absent" and reading
    an absent key is a `KeyError`, modelled through `Except String`.
  - Python values that can be `None`, a string or an integer are modelled by
    `Option` and by the `PyVal` sum.
  - Python `int(s)` / `int(s, 16)` are partial; they are modelled on the domain
    the regex captures can produce (no sign, no whitespace, no underscores),
    where they agree with Python exactly.
  - Strings are lists of characters; lines handed to the parser are assumed to
    carry no interior newline (they come from iterating a text file line by
    line and are stripped), matching the `.` in the brace regex never crossing
    a newline.
-/

/-- Python `str(x)` applied to a `str | None` value: `str(None) = "None"`. -/
def pyStr : Option String → String
  | none => "None"
  | some s => s

/-- Python `str.strip()` (restricted to ASCII whitespace): drop leading and
trailing whitespace characters. Defined structurally on the character list so
that it evaluates inside the kernel. -/
def pyStrip (s : String) : String :=
  String.mk (((s.data.dropWhile Char.isWhitespace).reverse.dropWhile
    Char.isWhitespace).reverse)

/-- Python `str.upper()` on ASCII strings, structurally on the character
list. -/
def pyUpper (s : String) : String :=
  String.mk (s.data.map Char.toUpper)

/-- A Python value that is either a string or an integer (the two value shapes
stored under the `default` key of a settings entry). Lean equality of `PyVal`
coincides with Python `==` on these values: `str == int` is `False`. -/
inductive PyVal where
  | str (s : String)
  | int (n : Int)
deriving DecidableEq, Repr

/-- Python `str()` of a `PyVal`. -/
def PyVal.toStr : PyVal → String
  | .str s => s
  | .int n => toString n

/-- One character of the regex class `[0-9A-Fa-f]`. -/
def isHexChar (c : Char) : Bool :=
  c.isDigit || (decide (97 ≤ c.toNat) && decide (c.toNat ≤ 102))
    || (decide (65 ≤ c.toNat) && decide (c.toNat ≤ 70))

/-- A non-empty string of decimal digits (what the `[\d]+` capture groups
produce, restricted to ASCII). -/
def isDigitStr (s : String) : Bool :=
  !s.data.isEmpty && s.data.all (fun c => c.isDigit)

/-- A non-empty string over `[0-9A-Fa-f]` (what the hex capture groups
produce). -/
def isHexStr (s : String) : Bool :=
  !s.data.isEmpty && s.data.all isHexChar

/-- Numeric value of a decimal digit string. -/
def decDigits (l : List Char) : Nat :=
  l.foldl (fun a c => a * 10 + (c.toNat - 48)) 0

/-- Numeric value of one hex digit. -/
def hexVal (c : Char) : Nat :=
  if c.isDigit then c.toNat - 48
  else if decide (97 ≤ c.toNat) && decide (c.toNat ≤ 102) then c.toNat - 87
  else if decide (65 ≤ c.toNat) && decide (c.toNat ≤ 70) then c.toNat - 55
  else 0

/-- Numeric value of a hex digit string. -/
def hexDigits (l : List Char) : Nat :=
  l.foldl (fun a c => a * 16 + hexVal c) 0

/-- Python `int(s)` on a regex capture (no sign, no spaces): succeeds exactly
on non-empty decimal-digit strings, otherwise raises `ValueError`. -/
def pyIntDec (s : String) : Except String Nat :=
  if isDigitStr s then .ok (decDigits s.data) else .error "ValueError"

/-- Python `int(s, 16)` on a regex capture: succeeds exactly on non-empty hex
digit strings, otherwise raises `ValueError`. -/
def pyIntHex (s : String) : Except String Nat :=
  if isHexStr s then .ok (hexDigits s.data) else .error "ValueError"

/-- Python `hex(n)` for `n ≥ 0`: `0x` followed by lowercase hex digits. -/
def pyHexNat (n : Nat) : String :=
  "0x" ++ String.mk (Nat.toDigits 16 n)

/-- Python `hex(n)` for any int: negative values get a leading minus sign. -/
def pyHexInt (n : Int) : String :=
  if n < 0 then "-0x" ++ String.mk (Nat.toDigits 16 (-n).toNat)
  else "0x" ++ String.mk (Nat.toDigits 16 n.toNat)

/-- The uppercase-hex reformatting `f"0x{hex(v)[2:].upper()}"` applied to a
non-negative int, used for one-of option values and pending defaults. -/
def pyHexUpper (n : Nat) : String :=
  "0x" ++ pyUpper (String.mk (Nat.toDigits 16 n))

/-- Python substring containment on character lists (`needle in haystack`). -/
def listIsInfix (needle : List Char) : List Char → Bool
  | [] => needle.isEmpty
  | c :: rest => needle.isPrefixOf (c :: rest) || listIsInfix needle rest

/-- Python `needle in haystack` for strings. -/
def strContains (haystack needle : String) : Bool :=
  listIsInfix needle.data haystack.data

/-!  ## Line reassembler (`main.py`, `parse_input_file` and `is_hex_line`)  -/

/-- `is_hex_line` from `main.py`: the line starts with `0x`, one or more hex
digits, then a colon (regex `^0x[0-9a-fA-F]+:` under `re.match`). -/
def is_hex_line (start_line : String) : Bool :=
  match start_line.data with
  | '0' :: 'x' :: rest =>
    !(rest.takeWhile isHexChar).isEmpty && (rest.dropWhile isHexChar).head? = some ':'
  | _ => false

/-- `re.compile(r"\{.*\}").search(line)` succeeds on a newline-free line iff
the line has a `{` with some `}` after it. -/
def brace_found (s : String) : Bool :=
  match s.data.dropWhile (fun c => c ≠ '{') with
  | [] => false
  | _ :: rest => rest.contains '}'

/-- The loop state of `parse_input_file`: the brace flag, the records emitted
so far, and the accumulator. The Python accumulator list never holds more than
one element (it is appended to only when empty), so it is an `Option`. -/
structure AsmState where
  pattern_found : Bool
  parsed : List String
  acc : Option String
deriving DecidableEq, Repr

/-- One iteration of the `for line in in_file` loop of `parse_input_file`. -/
def asm_step (st : AsmState) (raw : String) : AsmState :=
  let line := pyStrip raw
  let pf := st.pattern_found || brace_found line
  if is_hex_line line then
    match st.acc with
    | some a => ⟨pf, st.parsed ++ [a], some line⟩
    | none => ⟨pf, st.parsed, some line⟩
  else
    match st.acc with
    | some a => ⟨pf, st.parsed, some (a ++ " " ++ line)⟩
    | none => ⟨pf, st.parsed, none⟩

/-- The whole reassembly loop plus the final accumulator flush: returns the
logical records in file order and the whole-file brace flag. -/
def reassemble (ls : List String) : List String × Bool :=
  let st := ls.foldl asm_step ⟨false, [], none⟩
  (st.parsed ++ st.acc.toList, st.pattern_found)

/-- The fixed first-line marker string of `parse_input_file`. -/
def extraction_mode : String := "Extraction mode: UEFI"

/-- `parse_input_file` from `main.py`, on the file given as its list of lines.
Returns the reassembled logical records, or `[]` when the first line lacks the
marker (the `Invalid file` warning path) or no line carries a brace-enclosed
token (the `verbose` warning path). An empty file reads a first line of `""`. -/
def parse_input_file (lines : List String) : List String :=
  let first_line := lines.headD ""
  let rest := lines.tail
  if !strContains first_line extraction_mode then []
  else if !(reassemble rest).2 then [] else (reassemble rest).1

/-!  ## Classified records and the settings model (`main.py`)  -/

/-- A logical record as classified by the six regex patterns of
`dict_population`, carrying the capture groups the code reads (group numbers in
parentheses). Per the record classifier contract, each record matches at most
one pattern; the captures are strings, converted to integers inside the
reducer exactly where the source calls `int`. -/
inductive Record where
  /-- `varstore_pattern`: VarStoreId digits (1), Name (3). -/
  | varstore (id name : String)
  /-- `oneof_pattern`: Prompt (1), VarStoreId (5), VarOffset (6), Size (8). -/
  | oneof (prompt varstoreid varoffset size : String)
  /-- `oneofoption_pattern`: Option (1), Value (2), optional `, Default` (3). -/
  | oneofOption (option value : String) (isDefault : Bool)
  /-- `numeric_pattern`: Prompt (1), VarStoreId (5), VarOffset (6), Size (8),
  Min (9), Max (10). -/
  | numeric (prompt varstoreid varoffset size min max : String)
  /-- `checkbox_pattern`: Prompt (1), VarStoreId (5), VarOffset (6),
  Default token (8). -/
  | checkbox (prompt varstoreid varoffset default : String)
  /-- `default_pattern`: Value (1). -/
  | defaultRec (value : String)
deriving DecidableEq, Repr

/-- A settings entry: one of the inner Python dicts built by
`dict_population`. `none` fields are absent keys; reading them raises
`KeyError`. The `type` key is `"oneof"`, `"numeric"` or `"checkbox"`. -/
structure Entry where
  type : String
  name : String
  size : Option String := none
  min : Option Nat := none
  max : Option Nat := none
  options : Option (List (String × String)) := none
  default : Option PyVal := none
deriving DecidableEq, Repr

/-- The nested settings model: store name -> offset string -> entry, both
levels insertion-ordered dicts. -/
def Model := List (String × List (String × Entry))
deriving DecidableEq, Repr

/-- Python dict lookup `d.get(k)` on an association list. -/
def pyLookup {V : Type} : List (String × V) → String → Option V
  | [], _ => none
  | (k0, v0) :: rest, k => if k0 = k then some v0 else pyLookup rest k

/-- Python dict assignment `d[k] = v`: replace in place, else append. -/
def pyInsert {V : Type} : List (String × V) → String → V → List (String × V)
  | [], k, v => [(k, v)]
  | (k0, v0) :: rest, k, v =>
    if k0 = k then (k0, v) :: rest else (k0, v0) :: pyInsert rest k v

/-- Two-level lookup `settings_dict[s][o]` as an `Option`. -/
def lookup2 (m : Model) (s o : String) : Option Entry :=
  (pyLookup m s).bind (fun inner => pyLookup inner o)

/-- `settings_dict[s][o] = e` when `s` is already a key of the outer dict
(mutating the inner dict in place). -/
def setEntry (m : Model) (s o : String) (e : Entry) : Model :=
  pyInsert m s (pyInsert ((pyLookup m s).getD []) o e)

/-- The question-record insertion idiom:
`if s not in settings_dict: settings_dict[s] = {}` followed by
`settings_dict[s][o] = e`. -/
def insertEntry (m : Model) (s o : String) (e : Entry) : Model :=
  let m1 := if (pyLookup m s).isSome then m else pyInsert m s []
  setEntry m1 s o e

/-- The mutable locals of `dict_population` that persist across records. All
start as Python `None`. `default` holds the pending bare default value (a
formatted hex string for one-of, an int for numeric). -/
structure DPState where
  varstores : List (String × String) := []
  settings : Model := []
  oneof_name : Option String := none
  oneof_varstore : Option String := none
  oneof_varoffset : Option String := none
  numeric_name : Option String := none
  numeric_varstore : Option String := none
  numeric_varoffset : Option String := none
  last_oneof_name : Option String := none
  default : Option PyVal := none
  last_match : Option String := none
  child_match : Option String := none
deriving DecidableEq, Repr

/-- The initial state of the reducer. -/
def dp_init : DPState := {}

/-- The `varstore_match` branch: record the id -> name binding. -/
def dp_varstore (st : DPState) (id name : String) : DPState :=
  { st with varstores := pyInsert st.varstores id name }

/-- The `oneof_match` branch: reset `child_match`, resolve the store name
(`str(varstores.get(id))`, the string `"None"` when missing), compute the
byte size `hex(int(size) // 8)`, and open a fresh one-of entry. -/
def dp_oneof (st : DPState) (prompt varstoreid varoffset size : String) :
    Except String DPState :=
  match pyIntDec size with
  | .error e => .error e
  | .ok n =>
    let oneof_name := pyStrip prompt
    let oneof_varstore := pyStr (pyLookup st.varstores varstoreid)
    let oneof_varoffset := "0x" ++ varoffset
    let oneof_size := pyHexNat (n / 8)
    .ok { st with
      child_match := none
      oneof_name := some oneof_name
      oneof_varstore := some oneof_varstore
      oneof_varoffset := some oneof_varoffset
      settings := insertEntry st.settings oneof_varstore oneof_varoffset
        { type := "oneof", name := oneof_name, size := some oneof_size }
      last_match := some "oneof" }

/-- The entry mutation of the `oneofoption_match` branch: maybe assign the
default (first assignment wins), create the options dict if absent, then store
the option. `cond` is `last_oneof_name == oneof_name and default ==
oneofoption_value or oneofoption_default`. -/
def option_entry (cond : Bool) (oneofoption_name oneofoption_value : String)
    (e : Entry) : Entry :=
  let e1 := if cond && e.default = none
    then { e with default := some (.str oneofoption_name) } else e
  let e2 := if e1.options = none then { e1 with options := some [] } else e1
  { e2 with
    options := some (pyInsert (e2.options.getD []) oneofoption_name oneofoption_value) }

/-- The `oneofoption_match and last_match == "oneof"` branch. When the guard
fails the record falls through the remaining `elif` tests without effect. -/
def dp_oneofOption (st : DPState) (option value : String) (isDefault : Bool) :
    Except String DPState :=
  if st.last_match = some "oneof" then
    match pyIntDec value with
    | .error e => .error e
    | .ok v =>
      let oneofoption_name := pyStrip option
      let oneofoption_value := pyHexUpper v
      let cond := (decide (st.last_oneof_name = st.oneof_name)
          && decide (st.default = some (.str oneofoption_value))) || isDefault
      let settings :=
        match st.oneof_varstore, st.oneof_varoffset with
        | some s, some o =>
          match lookup2 st.settings s o with
          | some e => setEntry st.settings s o
              (option_entry cond oneofoption_name oneofoption_value e)
          | none => st.settings
        | _, _ => st.settings
      .ok { st with settings := settings, child_match := some "oneof_option" }
  else .ok st

/-- The `numeric_match` branch. -/
def dp_numeric (st : DPState)
    (prompt varstoreid varoffset size min max : String) : Except String DPState :=
  match pyIntDec size with
  | .error e => .error e
  | .ok n =>
    match pyIntHex min with
    | .error e => .error e
    | .ok numeric_min =>
      match pyIntHex max with
      | .error e => .error e
      | .ok numeric_max =>
        let numeric_name := pyStrip prompt
        let numeric_varstore := pyStr (pyLookup st.varstores varstoreid)
        let numeric_varoffset := "0x" ++ varoffset
        let numeric_size := pyHexNat (n / 8)
        .ok { st with
          numeric_name := some numeric_name
          numeric_varstore := some numeric_varstore
          numeric_varoffset := some numeric_varoffset
          settings := insertEntry st.settings numeric_varstore numeric_varoffset
            { type := "numeric", name := numeric_name, size := some numeric_size,
              min := some numeric_min, max := some numeric_max }
          last_match := some "numeric" }

/-- The `checkbox_match` branch: a complete entry, default embedded. -/
def dp_checkbox (st : DPState) (prompt varstoreid varoffset default : String) :
    DPState :=
  let checkbox_name := pyStrip prompt
  let checkbox_varstore := pyStr (pyLookup st.varstores varstoreid)
  let checkbox_varoffset := "0x" ++ varoffset
  { st with
    settings := insertEntry st.settings checkbox_varstore checkbox_varoffset
      { type := "checkbox", name := checkbox_name, default := some (.str default) }
    last_match := some "checkbox" }

/-- The `default_match` branch. For one-of with an option already consumed the
open entry's options are scanned (`KeyError` when the entry has no options
dict) and the first value-matching option becomes the default; with no option
consumed the formatted value is stashed as pending together with
`last_oneof_name`; for numeric the integer is stored directly. -/
def dp_defaultRec (st : DPState) (value : String) : Except String DPState :=
  if st.last_match = some "oneof" then
    if st.child_match ≠ none then
      match pyIntDec value with
      | .error e => .error e
      | .ok v =>
        let d := pyHexUpper v
        match st.oneof_varstore, st.oneof_varoffset with
        | some s, some o =>
          match lookup2 st.settings s o with
          | some e =>
            match e.options with
            | none => .error "KeyError"
            | some opts =>
              match opts.find? (fun kv => kv.2 == d) with
              | some kv =>
                .ok { st with
                  settings := setEntry st.settings s o
                    { e with default := some (.str kv.1) }
                  default := some (.str d) }
              | none => .ok { st with default := some (.str d) }
          | none => .ok { st with default := some (.str d) }
        | _, _ => .ok { st with default := some (.str d) }
    else
      match pyIntDec value with
      | .error e => .error e
      | .ok v =>
        .ok { st with
          default := some (.str (pyHexUpper v))
          last_oneof_name := st.oneof_name }
  else if st.last_match = some "numeric" then
    match pyIntDec value with
    | .error e => .error e
    | .ok v =>
      match st.numeric_varstore, st.numeric_varoffset with
      | some s, some o =>
        match lookup2 st.settings s o with
        | some e =>
          .ok { st with
            settings := setEntry st.settings s o { e with default := some (.int v) }
            default := some (.int v) }
        | none => .ok { st with default := some (.int v) }
      | _, _ => .ok { st with default := some (.int v) }
  else .ok st

/-- One iteration of the `for match in parsed_file` loop of
`dict_population`, on an already-classified record. -/
def dp_step (st : DPState) (r : Record) : Except String DPState :=
  match r with
  | .varstore id name => .ok (dp_varstore st id name)
  | .oneof prompt vsid voff size => dp_oneof st prompt vsid voff size
  | .oneofOption option value isDefault => dp_oneofOption st option value isDefault
  | .numeric prompt vsid voff size mn mx => dp_numeric st prompt vsid voff size mn mx
  | .checkbox prompt vsid voff dflt => .ok (dp_checkbox st prompt vsid voff dflt)
  | .defaultRec value => dp_defaultRec st value

/-- The fold of `dict_population` over a record sequence from a given state. -/
def dp_fold (st : DPState) : List Record → Except String DPState
  | [] => .ok st
  | r :: rest =>
    match dp_step st r with
    | .ok st1 => dp_fold st1 rest
    | .error e => .error e

/-- `dict_population` on classified records, from the initial state. -/
def dp_run (records : List Record) : Except String DPState :=
  dp_fold dp_init records

/-- The returned settings model of `dict_population`. -/
def dp_model (records : List Record) : Except String Model :=
  (dp_run records).map (fun st => st.settings)

/-!  ## Script compiler (`gui.py`)  -/

/-- The widget sitting in column 3 of a table row, carrying its current
user-visible value: a `QComboBox` text, a `QSpinBox` value, or a `QCheckBox`
state. `write_script` dispatches on the widget class. -/
inductive Widget where
  | combo (currentText : String)
  | spin (value : Int)
  | check (isChecked : Bool)
deriving DecidableEq, Repr

/-- One table row: the three data columns plus the optional column-3 widget
(rows built for settings without an editable default carry no widget). -/
structure Row where
  name : String
  varstore : String
  varoffset : String
  widget : Option Widget
deriving DecidableEq, Repr

/-- `export_oneof` from `gui.py`. The Python condition is
`varstore in sd and varoffset in sd[varstore] and name != sd[varstore][varoffset]["default"]`;
a missing `default` key raises `KeyError`. The directive value is
`options.get(label)`, rendered through `str` (so a missing label prints
`None`), never the label itself. -/
def export_oneof (sd : Model) (name varstore varoffset oneofoption_name : String) :
    Except String (List String) :=
  match lookup2 sd varstore varoffset with
  | none => .ok []
  | some entry =>
    match entry.default with
    | none => .error "KeyError"
    | some d =>
      if PyVal.str oneofoption_name = d then .ok []
      else
        match entry.options with
        | none => .error "KeyError"
        | some opts =>
          match entry.size with
          | none => .error "KeyError"
          | some size =>
            .ok ["# " ++ name ++ ": " ++ oneofoption_name ++
              "\nsetup_var.efi " ++ varoffset ++ " " ++
              pyStr (pyLookup opts oneofoption_name) ++ " -s " ++ size ++
              " -n " ++ varstore ++ "\n\n"]

/-- `export_numeric` from `gui.py`. Note the source reads
`self.settings_dict[varstore][varoffset]` before its own membership test, so a
missing store or offset raises `KeyError` here (unlike `export_oneof`). The
value is re-encoded as `0x` + `hex(value)[2:].upper()`. -/
def export_numeric (sd : Model) (name varstore varoffset : String) (value : Int) :
    Except String (List String) :=
  match lookup2 sd varstore varoffset with
  | none => .error "KeyError"
  | some numeric_dict =>
    match numeric_dict.default with
    | none => .error "KeyError"
    | some d =>
      if PyVal.int value = d then .ok []
      else
        match numeric_dict.size with
        | none => .error "KeyError"
        | some size =>
          .ok ["# " ++ name ++ ": " ++ toString value ++
            "\nsetup_var.efi " ++ varoffset ++ " 0x" ++
            pyUpper ((pyHexInt value).drop 2) ++ " -s " ++ size ++
            " -n " ++ varstore ++ "\n\n"]

/-- `export_checkbox` from `gui.py`: emits `0x1` when checked against a
`Disabled` default, `0x0` when unchecked against an `Enabled` default, and
nothing otherwise; size is hardcoded to `0x1`. -/
def export_checkbox (sd : Model) (name varstore varoffset : String)
    (isChecked : Bool) : Except String (List String) :=
  match lookup2 sd varstore varoffset with
  | none => .ok []
  | some checkbox_dict =>
    match checkbox_dict.default with
    | none => .error "KeyError"
    | some default_value =>
      if isChecked then
        if default_value = .str "Disabled" then
          .ok ["# " ++ name ++ ": Enabled\nsetup_var.efi " ++ varoffset ++
            " 0x1 -s 0x1 -n " ++ varstore ++ "\n\n"]
        else .ok []
      else
        if default_value = .str "Enabled" then
          .ok ["# " ++ name ++ ": Disabled\nsetup_var.efi " ++ varoffset ++
            " 0x0 -s 0x1 -n " ++ varstore ++ "\n\n"]
        else .ok []

/-- One iteration of the row loop in `write_script`: dispatch on the widget
class; rows without a widget are skipped. -/
def export_row (sd : Model) (r : Row) : Except String (List String) :=
  match r.widget with
  | some (.combo s) => export_oneof sd r.name r.varstore r.varoffset s
  | some (.spin n) => export_numeric sd r.name r.varstore r.varoffset n
  | some (.check b) => export_checkbox sd r.name r.varstore r.varoffset b
  | none => .ok []

/-- The whole row loop of `write_script`: the write directives appended to
`self.export`, in row order. -/
def export_rows (sd : Model) : List Row → Except String (List String)
  | [] => .ok []
  | r :: rest =>
    match export_row sd r with
    | .error e => .error e
    | .ok d =>
      match export_rows sd rest with
      | .error e => .error e
      | .ok ds => .ok (d ++ ds)

/-- The attribution comment `write_script` always appends first. -/
def attribution : String :=
  "# The script was created with setupvar-builder (https://github.com/ab3lkaizen/setupvar-builder)\n\n"

/-- `MyTableModel.data` for the three data columns: `None` (rendered `"None"`)
when the row or column index is out of bounds, mirroring `dataValue`. -/
def tableData (rows : List Row) (row col : Nat) : Option String :=
  match rows.get? row with
  | none => none
  | some r =>
    match col with
    | 0 => some r.name
    | 1 => some r.varstore
    | 2 => some r.varoffset
    | _ => none

/-- `export_script` from `gui.py`: when a save path was chosen, append the
trailing read-and-reboot command built from row 0 of the table (fields render
as `"None"` on an empty table) and write the concatenated export list;
otherwise nothing is written. -/
def export_script (rows : List Row) (export_ : List String) (file_path : String) :
    Option String :=
  if file_path ≠ "" then
    let name := pyStr (tableData rows 0 0)
    let varstore := pyStr (tableData rows 0 1)
    let varoffset := pyStr (tableData rows 0 2)
    some (String.join (export_ ++
      ["# read " ++ name ++ " and reboot\nsetup_var.efi " ++ varoffset ++
        " -n " ++ varstore ++ " -r"]))
  else none

/-- `write_script` from `gui.py`: attribution comment, then the per-row
directives, then `export_script`. Returns the written file content (`none`
when the save dialog was cancelled); a `KeyError` in a row export aborts
everything before any file is written. -/
def write_script (sd : Model) (rows : List Row) (file_path : String) :
    Except String (Option String) :=
  match export_rows sd rows with
  | .error e => .error e
  | .ok dirs => .ok (export_script rows (attribution :: dirs) file_path)

/-!  ## Table population (`main.py`, `table_population`)

Only the widget kind of each row is modelled (which rows get an editable
widget); the widgets' initial values are user-editable state that every claim
quantifies over, so they are carried by `Row` instead. -/

/-- The kind of widget `table_population` installs on a row. -/
inductive WidgetKind where
  | comboK
  | spinK
  | checkK
deriving DecidableEq, Repr

/-- A row as created by `table_population`: data columns plus widget kind. -/
structure RowK where
  name : String
  varstore : String
  varoffset : String
  widget : Option WidgetKind
deriving DecidableEq, Repr

/-- Python `int(x)` on a `str | int` value (used on numeric defaults in
`add_numeric`): ints pass through, strings parse as optionally-signed
decimal. -/
def pyIntOfVal : PyVal → Except String Int
  | .int n => .ok n
  | .str s =>
    match s.data with
    | '-' :: rest =>
      if !rest.isEmpty && rest.all (fun c => c.isDigit)
      then .ok (-(decDigits rest : Int)) else .error "ValueError"
    | l =>
      if !l.isEmpty && l.all (fun c => c.isDigit)
      then .ok (decDigits l) else .error "ValueError"

/-- One `table_population` loop body on an entry: reads `name`, the optional
`default`, dispatches on `type`. A one-of row reads the `options` dict
(`KeyError` when absent) and gets a combo box only when the default is a
truthy string and at least one option exists; a numeric row reads `min` and
`max` and gets a spin box only when the default exists and satisfies
`-2147483648 < default < 2147483647 and default >= min`; a checkbox row always
gets a widget; an unknown `type` adds no row. -/
def table_row (varstore varoffset : String) (e : Entry) :
    Except String (Option RowK) :=
  let name := e.name
  let dflt := e.default
  if e.type = "oneof" then
    match e.options with
    | none => .error "KeyError"
    | some options =>
      let widget := if (match dflt with
          | none => false
          | some v => v.toStr ≠ "") && !options.isEmpty
        then some WidgetKind.comboK else none
      .ok (some ⟨name, varstore, varoffset, widget⟩)
  else if e.type = "numeric" then
    match e.min with
    | none => .error "KeyError"
    | some mn =>
      match e.max with
      | none => .error "KeyError"
      | some _mx =>
        match dflt with
        | none => .ok (some ⟨name, varstore, varoffset, none⟩)
        | some v =>
          match pyIntOfVal v with
          | .error e => .error e
          | .ok d =>
            let widget := if -2147483648 < d ∧ d < 2147483647 ∧ (mn : Int) ≤ d
              then some WidgetKind.spinK else none
            .ok (some ⟨name, varstore, varoffset, widget⟩)
  else if e.type = "checkbox" then
    .ok (some ⟨name, varstore, varoffset, some WidgetKind.checkK⟩)
  else .ok none

/-- `table_population` over one store's inner dict. -/
def table_population_inner (s : String) :
    List (String × Entry) → Except String (List RowK)
  | [] => .ok []
  | (o, e) :: rest =>
    match table_row s o e with
    | .error err => .error err
    | .ok r? =>
      match table_population_inner s rest with
      | .error err => .error err
      | .ok rs => .ok (r?.toList ++ rs)

/-- `table_population` from `main.py`: the rows added to the table, in model
iteration order. -/
def table_population : Model → Except String (List RowK)
  | [] => .ok []
  | (s, inner) :: rest =>
    match table_population_inner s inner with
    | .error err => .error err
    | .ok rs1 =>
      match table_population rest with
      | .error err => .error err
      | .ok rs2 => .ok (rs1 ++ rs2)

/-!  ## Classifier capture classes (`dict_population` patterns)  -/

/-- Well-formedness of a classified record's captures, as guaranteed by the
regex character classes: prompts from `(.+?)` are non-empty, id/offset/size
groups are non-empty `[0-9A-Fa-f]+` strings (note the Size groups of the
one-of and numeric patterns really are hex-class, not `[\d]+`), option and
default values are non-empty `[\d]+` strings, and a checkbox default token is
`Enabled` or `Disabled`. -/
def record_valid : Record → Bool
  | .varstore id _ => isHexStr id
  | .oneof prompt vsid voff size =>
    !prompt.isEmpty && isHexStr vsid && isHexStr voff && isHexStr size
  | .oneofOption _ value _ => isDigitStr value
  | .numeric prompt vsid voff size mn mx =>
    !prompt.isEmpty && isHexStr vsid && isHexStr voff && isHexStr size
      && isHexStr mn && isHexStr mx
  | .checkbox prompt vsid voff dflt =>
    !prompt.isEmpty && isHexStr vsid && isHexStr voff
      && (dflt == "Enabled" || dflt == "Disabled")
  | .defaultRec value => isDigitStr value

/-- Exactly the `int` conversions `dict_population` applies to a record's
captured numeral groups, in source order: `int(size)` (base 10) for one-of and
numeric, `int(min, 16)` and `int(max, 16)` for numeric, `int(value)` for
option and default records. -/
def record_conversions : Record → Except String Unit
  | .varstore _ _ => .ok ()
  | .oneof _ _ _ size =>
    match pyIntDec size with
    | .error e => .error e
    | .ok _ => .ok ()
  | .oneofOption _ value _ =>
    match pyIntDec value with
    | .error e => .error e
    | .ok _ => .ok ()
  | .numeric _ _ _ size mn mx =>
    match pyIntDec size with
    | .error e => .error e
    | .ok _ =>
      match pyIntHex mn with
      | .error e => .error e
      | .ok _ =>
        match pyIntHex mx with
        | .error e => .error e
        | .ok _ => .ok ()
  | .checkbox _ _ _ _ => .ok ()
  | .defaultRec value =>
    match pyIntDec value with
    | .error e => .error e
    | .ok _ => .ok ()

/-- Whether the Size capture of a question record is all decimal digits (the
case in which base-10 conversion of a hex-class capture succeeds). -/
def size_decimal : Record → Bool
  | .oneof _ _ _ size => isDigitStr size
  | .numeric _ _ _ size _ _ => isDigitStr size
  | _ => true

/-!  ## Dictionary lemmas  -/

theorem pyLookup_pyInsert_self {V : Type} (m : List (String × V)) (k : String) (v : V) :
    pyLookup (pyInsert m k v) k = some v := by
  induction m with
  | nil => simp [pyInsert, pyLookup]
  | cons kv rest ih =>
    by_cases h : kv.1 = k
    · simp [pyInsert, pyLookup, h]
    · simp [pyInsert, pyLookup, h, ih]

theorem pyLookup_pyInsert_ne {V : Type} (m : List (String × V)) {k k1 : String}
    (h : k1 ≠ k) (v : V) : pyLookup (pyInsert m k v) k1 = pyLookup m k1 := by
  have hkk : ¬ k = k1 := fun hh => h hh.symm
  induction m with
  | nil => simp [pyInsert, pyLookup, hkk]
  | cons kv rest ih =>
    rcases kv with ⟨k0, v0⟩
    by_cases hk : k0 = k
    · subst hk
      simp [pyInsert, pyLookup, hkk]
    · simp [pyInsert, pyLookup, hk, ih]

theorem lookup2_setEntry (m : Model) (s o s1 o1 : String) (e : Entry) :
    lookup2 (setEntry m s o e) s1 o1 =
      if s1 = s ∧ o1 = o then some e else lookup2 m s1 o1 := by
  by_cases hs : s1 = s
  · subst hs
    by_cases ho : o1 = o
    · subst ho
      simp [setEntry, lookup2, pyLookup_pyInsert_self]
    · rw [if_neg (fun hh => ho hh.2)]
      unfold setEntry lookup2
      rw [pyLookup_pyInsert_self]
      have ho2 : ¬ o = o1 := fun hh => ho hh.symm
      cases hm : pyLookup m s1 with
      | none => simp [Option.getD, pyLookup_pyInsert_ne _ ho, pyLookup, ho2]
      | some inner => simp [Option.getD, pyLookup_pyInsert_ne _ ho]
  · rw [if_neg (fun hh => hs hh.1)]
    unfold setEntry lookup2
    rw [pyLookup_pyInsert_ne _ hs]

theorem lookup2_insertEntry (m : Model) (s o s1 o1 : String) (e : Entry) :
    lookup2 (insertEntry m s o e) s1 o1 =
      if s1 = s ∧ o1 = o then some e else lookup2 m s1 o1 := by
  unfold insertEntry
  by_cases h : (pyLookup m s).isSome
  · rw [if_pos h, lookup2_setEntry]
  · rw [if_neg h, lookup2_setEntry]
    by_cases hc : s1 = s ∧ o1 = o
    · rw [if_pos hc, if_pos hc]
    · rw [if_neg hc, if_neg hc]
      by_cases hs : s1 = s
      · subst hs
        have hm : pyLookup m s1 = none := by
          cases hm : pyLookup m s1 with
          | none => rfl
          | some x => rw [hm] at h; simp at h
        unfold lookup2
        rw [pyLookup_pyInsert_self, hm]
        simp [pyLookup]
      · unfold lookup2
        rw [pyLookup_pyInsert_ne _ hs]

theorem lookup2_insertEntry_self (m : Model) (s o : String) (e : Entry) :
    lookup2 (insertEntry m s o e) s o = some e := by
  simp [lookup2_insertEntry]

/-- `option_entry` never clears a present default. -/
theorem option_entry_default (cond : Bool) (n v : String) (e : Entry)
    (h : e.default ≠ none) : (option_entry cond n v e).default = e.default := by
  unfold option_entry
  simp only [h, and_false]
  split <;> split <;> simp_all

/-- Left-cancellation of string concatenation. -/
theorem string_append_left_cancel {p a b : String} (h : p ++ a = p ++ b) : a = b := by
  have hd : p.data ++ a.data = p.data ++ b.data := by
    rw [← String.data_append, ← String.data_append, h]
  exact String.ext (List.append_cancel_left hd)

/-!  ## Reassembler lemmas  -/

theorem asm_step_found (st : AsmState) (raw : String) :
    (asm_step st raw).pattern_found = (st.pattern_found || brace_found (pyStrip raw)) := by
  unfold asm_step
  cases h : is_hex_line (pyStrip raw) <;> cases hacc : st.acc <;> simp [h, hacc]

theorem foldl_asm_found (ls : List String) (st : AsmState) :
    (ls.foldl asm_step st).pattern_found =
      (st.pattern_found || ls.any (fun l => brace_found (pyStrip l))) := by
  induction ls generalizing st with
  | nil => simp
  | cons l rest ih =>
    simp only [List.foldl_cons, List.any_cons, ih, asm_step_found, Bool.or_assoc]

theorem reassemble_found (ls : List String) :
    (reassemble ls).2 = ls.any (fun l => brace_found (pyStrip l)) := by
  simp [reassemble, foldl_asm_found]

/-!  ## Claims  -/

/-- C5: for every input file whose first line does not contain the fixed
extraction-mode marker string, the parser rejects the file (the
`InvalidFormat` / "Invalid file" path), aborts the whole parse and returns no
records, and the model built from no records is empty. -/
theorem invalid_marker_rejects (first : String) (rest : List String)
    (h : strContains first extraction_mode = false) :
    parse_input_file (first :: rest) = [] ∧ dp_model [] = .ok ([] : Model) := by
  constructor
  · simp [parse_input_file, h]
  · rfl

theorem invalid_marker_rejects_witness :
    parse_input_file ["UEFI dump", "0x10: A \x7b0\x7d"] = [] ∧
    dp_model [] = .ok ([] : Model) :=
  invalid_marker_rejects "UEFI dump" ["0x10: A \x7b0\x7d"] rfl

/-- C6: for a file that passes the marker check, if no (stripped) body line
contains a brace-enclosed token the parse fails (the `NotVerboseExtraction`
path, returning `[]`), and the check is over the whole file at once: a single
brace-bearing line anywhere in the body makes the parse succeed and return
the reassembled records. -/
theorem brace_check_whole_file (first : String) (rest : List String)
    (hm : strContains first extraction_mode = true) :
    ((∀ l ∈ rest, brace_found (pyStrip l) = false) →
      parse_input_file (first :: rest) = []) ∧
    ((∃ l ∈ rest, brace_found (pyStrip l) = true) →
      parse_input_file (first :: rest) = (reassemble rest).1) := by
  constructor
  · intro h
    have hf : (reassemble rest).2 = false := by
      rw [reassemble_found]
      rw [List.any_eq_false]
      intro l hl
      simp [h l hl]
    simp [parse_input_file, hm, hf]
  · intro hex
    obtain ⟨l, hl, hb⟩ := hex
    have hf : (reassemble rest).2 = true := by
      rw [reassemble_found]
      exact List.any_eq_true.mpr ⟨l, hl, hb⟩
    simp [parse_input_file, hm, hf]

theorem brace_check_whole_file_witness :
    parse_input_file ["Extraction mode: UEFI", "0x10: A"] = [] ∧
    parse_input_file ["Extraction mode: UEFI", "0x10: A \x7b0\x7d"] =
      (reassemble ["0x10: A \x7b0\x7d"]).1 :=
  ⟨(brace_check_whole_file "Extraction mode: UEFI" ["0x10: A"] rfl).1 (by decide),
   (brace_check_whole_file "Extraction mode: UEFI" ["0x10: A \x7b0\x7d"] rfl).2
     ⟨"0x10: A \x7b0\x7d", by decide⟩⟩

/-- C9 counterexample: the record `OneOf ... Size: A` matches the one-of
pattern (the Size group class is `[0-9A-Fa-f]+`), but `int("A")` is base 10
and raises `ValueError`, so conversion of a pattern-matched record's captures
is not total. -/
theorem hex_size_conversion_counterexample :
    record_valid (Record.oneof "X" "1" "10" "A") = true ∧
    record_conversions (Record.oneof "X" "1" "10" "A") = .error "ValueError" :=
  ⟨rfl, rfl⟩

/-- C9 (amended): converting the captured numeral groups succeeds on every
pattern-matched record whose one-of/numeric Size capture is all decimal
digits; every other captured group's conversion is total on its pattern
class. -/
theorem conversions_total_on_decimal_size (r : Record)
    (h1 : record_valid r = true) (h2 : size_decimal r = true) :
    record_conversions r = .ok () := by
  cases r with
  | varstore id name => rfl
  | oneof p vs vo size =>
    simp only [size_decimal] at h2
    simp [record_conversions, pyIntDec, h2]
  | oneofOption o v d =>
    simp only [record_valid] at h1
    simp [record_conversions, pyIntDec, h1]
  | numeric p vs vo size mn mx =>
    simp only [record_valid, Bool.and_eq_true] at h1
    simp only [size_decimal] at h2
    obtain ⟨⟨_, hmn⟩, hmx⟩ := h1
    simp [record_conversions, pyIntDec, pyIntHex, h2, hmn, hmx]
  | checkbox p vs vo d => rfl
  | defaultRec v =>
    simp only [record_valid] at h1
    simp [record_conversions, pyIntDec, h1]

theorem conversions_total_on_decimal_size_witness :
    record_conversions (Record.numeric "N" "1" "20" "16" "0" "FF") = .ok () :=
  conversions_total_on_decimal_size (Record.numeric "N" "1" "20" "16" "0" "FF")
    rfl rfl

/-- The model used in the C3 theorems: one one-of entry with an options dict
but no stored default. -/
def model_c3 : Model :=
  [("Setup", [("0x10",
    { type := "oneof", name := "Fan", size := some "0x1",
      options := some [("Auto", "0x0"), ("Manual", "0x1")] })])]

/-- C3 counterexample: on a setting with no stored default and a user
selection, the compiler does not emit a directive — it raises `KeyError`
reading the missing `default` key, for both the one-of and the numeric
export path. -/
theorem no_default_selection_counterexample :
    export_oneof model_c3 "Fan" "Setup" "0x10" "Auto" = .error "KeyError" ∧
    export_numeric model_c3 "Fan" "Setup" "0x10" 3 = .error "KeyError" :=
  ⟨rfl, rfl⟩

/-- C3 (amended): for every setting present in the model with no stored
default, a selection never produces a write directive: both export paths
abort with `KeyError` on the missing `default` key. -/
theorem no_default_selection_keyerror (sd : Model)
    (name varstore varoffset label : String) (value : Int) (e : Entry)
    (he : lookup2 sd varstore varoffset = some e) (hd : e.default = none) :
    export_oneof sd name varstore varoffset label = .error "KeyError" ∧
    export_numeric sd name varstore varoffset value = .error "KeyError" := by
  constructor
  · simp [export_oneof, he, hd]
  · simp [export_numeric, he, hd]

theorem no_default_selection_keyerror_witness :
    export_oneof model_c3 "Fan" "Setup" "0x10" "Manual" = .error "KeyError" ∧
    export_numeric model_c3 "Fan" "Setup" "0x10" 9 = .error "KeyError" :=
  no_default_selection_keyerror model_c3 "Fan" "Setup" "0x10" "Manual" 9
    { type := "oneof", name := "Fan", size := some "0x1",
      options := some [("Auto", "0x0"), ("Manual", "0x1")] } rfl rfl

/-- C2: for a one-of setting with a stored default and a chosen option label
different from it, the compiler emits exactly one directive of the literal
form `setup_var.efi <offsetHex> <valueHex> -s <sizeHex> -n <storeName>`
(preceded by its comment line in the same export string), whose emitted value
is the `options` mapping value stored at the chosen label, never the label
itself. -/
theorem oneof_directive_emits_option_value (sd : Model)
    (name varstore varoffset label dlabel sz v : String)
    (e : Entry) (opts : List (String × String))
    (he : lookup2 sd varstore varoffset = some e)
    (_ht : e.type = "oneof")
    (hd : e.default = some (.str dlabel))
    (ho : e.options = some opts)
    (hs : e.size = some sz)
    (hv : pyLookup opts label = some v)
    (hne : label ≠ dlabel) :
    export_oneof sd name varstore varoffset label =
      .ok ["# " ++ name ++ ": " ++ label ++ "\nsetup_var.efi " ++ varoffset ++
        " " ++ v ++ " -s " ++ sz ++ " -n " ++ varstore ++ "\n\n"] := by
  simp [export_oneof, he, hd, ho, hs, hv, pyStr, hne]

/-- The model used in the C2 witness: the end-to-end scenario of the spec. -/
def model_c2 : Model :=
  [("Setup", [("0x10",
    { type := "oneof", name := "Fan Mode", size := some "0x1",
      options := some [("Auto", "0x0"), ("Manual", "0x1")],
      default := some (.str "Manual") })])]

theorem oneof_directive_emits_option_value_witness :
    export_oneof model_c2 "Fan Mode" "Setup" "0x10" "Auto" =
      .ok ["# Fan Mode: Auto\nsetup_var.efi 0x10 0x0 -s 0x1 -n Setup\n\n"] :=
  oneof_directive_emits_option_value model_c2 "Fan Mode" "Setup" "0x10" "Auto"
    "Manual" "0x1" "0x0"
    { type := "oneof", name := "Fan Mode", size := some "0x1",
      options := some [("Auto", "0x0"), ("Manual", "0x1")],
      default := some (.str "Manual") }
    [("Auto", "0x0"), ("Manual", "0x1")]
    rfl rfl rfl rfl rfl rfl (by decide)

/-- C4 counterexample: a one-of question record whose VarStoreId has no
preceding variable-store declaration is not a no-op: the entry is inserted
under the placeholder store name `"None"` (`str(varstores.get(id))`), so the
model is changed by the record. -/
theorem missing_varstore_counterexample :
    dp_model [Record.oneof "Fan" "1" "10" "8"] =
      .ok [("None", [("0x10",
        { type := "oneof", name := "Fan", size := some "0x1" })])] ∧
    [("None", [("0x10",
      ({ type := "oneof", name := "Fan", size := some "0x1" } : Entry))])] ≠
      ([] : Model) :=
  ⟨rfl, by decide⟩

/-- C4 (amended): a one-of or numeric question record with an undeclared
VarStoreId is absorbed without error, but it is not a no-op: the new entry is
filed in the model under the placeholder store name `"None"`. -/
theorem missing_varstore_inserts_placeholder (st : DPState)
    (p1 vs1 o1 s1 p2 vs2 o2 s2 mn mx : String) (k1 k2 kmn kmx : Nat)
    (h1 : pyLookup st.varstores vs1 = none)
    (hs1 : pyIntDec s1 = .ok k1)
    (h2 : pyLookup st.varstores vs2 = none)
    (hs2 : pyIntDec s2 = .ok k2)
    (hmn : pyIntHex mn = .ok kmn)
    (hmx : pyIntHex mx = .ok kmx) :
    (∃ st1, dp_step st (.oneof p1 vs1 o1 s1) = .ok st1 ∧
      lookup2 st1.settings "None" ("0x" ++ o1) =
        some { type := "oneof", name := pyStrip p1,
               size := some (pyHexNat (k1 / 8)) }) ∧
    (∃ st2, dp_step st (.numeric p2 vs2 o2 s2 mn mx) = .ok st2 ∧
      lookup2 st2.settings "None" ("0x" ++ o2) =
        some { type := "numeric", name := pyStrip p2,
               size := some (pyHexNat (k2 / 8)),
               min := some kmn, max := some kmx }) := by
  constructor
  · have hstep : dp_step st (.oneof p1 vs1 o1 s1) = .ok
      { st with
        child_match := none
        oneof_name := some (pyStrip p1)
        oneof_varstore := some "None"
        oneof_varoffset := some ("0x" ++ o1)
        settings := insertEntry st.settings "None" ("0x" ++ o1)
          { type := "oneof", name := pyStrip p1, size := some (pyHexNat (k1 / 8)) }
        last_match := some "oneof" } := by
      show dp_oneof st p1 vs1 o1 s1 = _
      simp only [dp_oneof, hs1, h1, pyStr]
    exact ⟨_, hstep, by simp [lookup2_insertEntry_self]⟩
  · have hstep : dp_step st (.numeric p2 vs2 o2 s2 mn mx) = .ok
      { st with
        numeric_name := some (pyStrip p2)
        numeric_varstore := some "None"
        numeric_varoffset := some ("0x" ++ o2)
        settings := insertEntry st.settings "None" ("0x" ++ o2)
          { type := "numeric", name := pyStrip p2, size := some (pyHexNat (k2 / 8)),
            min := some kmn, max := some kmx }
        last_match := some "numeric" } := by
      show dp_numeric st p2 vs2 o2 s2 mn mx = _
      simp only [dp_numeric, hs2, hmn, hmx, h2, pyStr]
    exact ⟨_, hstep, by simp [lookup2_insertEntry_self]⟩

theorem missing_varstore_inserts_placeholder_witness :
    (∃ st1, dp_step dp_init (.oneof "A" "2" "20" "16") = .ok st1 ∧
      lookup2 st1.settings "None" ("0x" ++ "20") =
        some { type := "oneof", name := "A",
               size := some (pyHexNat (16 / 8)) }) ∧
    (∃ st2, dp_step dp_init (.numeric "B" "3" "30" "8" "0" "FF") = .ok st2 ∧
      lookup2 st2.settings "None" ("0x" ++ "30") =
        some { type := "numeric", name := "B",
               size := some (pyHexNat (8 / 8)),
               min := some 0, max := some 255 }) :=
  missing_varstore_inserts_placeholder dp_init
    "A" "2" "20" "16" "B" "3" "30" "8" "0" "FF" 16 8 0 255
    rfl rfl rfl rfl rfl rfl

/-- C7 counterexample: compiling against an empty settings model does not
produce an empty script: the attribution comment is always prepended and,
once a save path is chosen, a trailing read-and-reboot command is emitted
with `None` placeholders taken from the empty table. -/
theorem empty_model_script_counterexample :
    write_script ([] : Model) ([] : List Row) "setupvar-script.nsh" =
      .ok (some ("# The script was created with setupvar-builder (https://github.com/ab3lkaizen/setupvar-builder)\n\n# read None and reboot\nsetup_var.efi None -n None -r")) :=
  rfl

/-- C7 (amended): against an empty model the table is empty and no write
directives are emitted, but the produced script is not empty: it consists of
the attribution comment followed by a read-and-reboot command whose fields
render as `None`. -/
theorem empty_model_script_content (file_path : String) (h : file_path ≠ "") :
    table_population ([] : Model) = .ok [] ∧
    export_rows ([] : Model) ([] : List Row) = .ok [] ∧
    write_script ([] : Model) ([] : List Row) file_path =
      .ok (some (attribution ++
        "# read None and reboot\nsetup_var.efi None -n None -r")) := by
  refine ⟨rfl, rfl, ?_⟩
  show Except.ok (export_script [] [attribution] file_path) = _
  unfold export_script
  rw [if_pos h]
  rfl

theorem empty_model_script_content_witness :
    table_population ([] : Model) = .ok [] ∧
    export_rows ([] : Model) ([] : List Row) = .ok [] ∧
    write_script ([] : Model) ([] : List Row) "out.nsh" =
      .ok (some (attribution ++
        "# read None and reboot\nsetup_var.efi None -n None -r")) :=
  empty_model_script_content "out.nsh" (by decide)

/-- The user selection of a row equals the stored default of the setting the
row addresses: the setting exists in the model and its `default` key holds
exactly the selected value (the label for a combo box, the integer for a spin
box, `Enabled`/`Disabled` matching the check state for a check box). Rows
without a widget carry no selection. -/
def sel_eq_default (sd : Model) (r : Row) : Prop :=
  match r.widget with
  | none => True
  | some (.combo s) => ∃ e, lookup2 sd r.varstore r.varoffset = some e ∧
      e.default = some (.str s)
  | some (.spin n) => ∃ e, lookup2 sd r.varstore r.varoffset = some e ∧
      e.default = some (.int n)
  | some (.check b) => ∃ e, lookup2 sd r.varstore r.varoffset = some e ∧
      e.default = some (.str (if b then "Enabled" else "Disabled"))

/-- C1: for every settings model and every table whose selections all equal
the stored defaults, the compiler emits no write directives: the directive
list collected by the row loop of `write_script` is empty. -/
theorem all_default_selection_no_directives (sd : Model) (rows : List Row)
    (h : ∀ r ∈ rows, sel_eq_default sd r) :
    export_rows sd rows = .ok [] := by
  induction rows with
  | nil => rfl
  | cons r rest ih =>
    obtain ⟨nm, vs, vo, w⟩ := r
    have hr := h _ (List.mem_cons_self _ rest)
    simp only [sel_eq_default] at hr
    have hrow : export_row sd ⟨nm, vs, vo, w⟩ = .ok [] := by
      cases w with
      | none => rfl
      | some wv =>
        cases wv with
        | combo s =>
          obtain ⟨e, he, hd⟩ := hr
          simp [export_row, export_oneof, he, hd]
        | spin n =>
          obtain ⟨e, he, hd⟩ := hr
          simp [export_row, export_numeric, he, hd]
        | check b =>
          obtain ⟨e, he, hd⟩ := hr
          cases b with
          | true =>
            simp only [if_pos rfl] at hd
            simp [export_row, export_checkbox, he, hd]
          | false =>
            simp only [Bool.false_eq_true, if_neg, if_false] at hd
            simp [export_row, export_checkbox, he, hd]
    have hrest : export_rows sd rest = .ok [] :=
      ih (fun x hx => h x (List.mem_cons_of_mem _ hx))
    simp [export_rows, hrow, hrest]

/-- The entry and model used in the C1 witness. -/
def entry_c1 : Entry :=
  { type := "oneof", name := "Fan", size := some "0x1",
    options := some [("Auto", "0x0"), ("Manual", "0x1")],
    default := some (.str "Auto") }

/-- The model used in the C1 witness. -/
def model_c1 : Model := [("Setup", [("0x10", entry_c1)])]

theorem all_default_selection_no_directives_witness :
    export_rows model_c1 [⟨"Fan", "Setup", "0x10", some (.combo "Auto")⟩] =
      .ok [] :=
  all_default_selection_no_directives model_c1
    [⟨"Fan", "Setup", "0x10", some (.combo "Auto")⟩]
    (by
      intro r hr
      rw [List.mem_singleton] at hr
      subst hr
      exact ⟨entry_c1, rfl, rfl⟩)

/-- The record is a one-of or numeric question record that re-opens exactly
the key `(s, o)` in the current state (its computed store name is `s` and its
prefixed offset is `o`). Such a record replaces the whole entry at that key
with a fresh default-less one. -/
def reopens_key (st : DPState) (r : Record) (s o : String) : Prop :=
  match r with
  | .oneof _ vsid voff _ =>
    pyStr (pyLookup st.varstores vsid) = s ∧ "0x" ++ voff = o
  | .numeric _ vsid voff _ _ _ =>
    pyStr (pyLookup st.varstores vsid) = s ∧ "0x" ++ voff = o
  | _ => False

/-- C8 counterexample: a key's default is not stable under later records: a
checkbox record gives the key `("None", "0x10")` a default, and a subsequent
one-of question record at the same key replaces the entry with a fresh one
that has no default. -/
theorem default_cleared_counterexample :
    (dp_model [Record.checkbox "C" "1" "10" "Enabled"]).map
        (fun m => (lookup2 m "None" "0x10").map (fun e => e.default)) =
      .ok (some (some (.str "Enabled"))) ∧
    (dp_model [Record.checkbox "C" "1" "10" "Enabled",
        Record.oneof "O" "1" "10" "8"]).map
        (fun m => (lookup2 m "None" "0x10").map (fun e => e.default)) =
      .ok (some none) :=
  ⟨rfl, rfl⟩

/-- C8 (amended): once the entry at a key has a default, processing any
further record keeps the key's entry default-bearing, unless that record is a
one-of or numeric question record re-opening the very same key (which
replaces the whole entry by a fresh default-less one); no operation clears a
`default` in place. -/
theorem default_preserved_unless_reopened (st st1 : DPState) (r : Record)
    (s o : String) (e : Entry)
    (hstep : dp_step st r = .ok st1)
    (he : lookup2 st.settings s o = some e)
    (hd : e.default ≠ none)
    (hr : ¬ reopens_key st r s o) :
    ∃ e1, lookup2 st1.settings s o = some e1 ∧ e1.default ≠ none := by
  cases r with
  | varstore id name =>
    have h1 : dp_varstore st id name = st1 := by
      simpa [dp_step] using hstep
    subst h1
    exact ⟨e, he, hd⟩
  | oneof p vsid voff size =>
    change dp_oneof st p vsid voff size = .ok st1 at hstep
    cases hk : pyIntDec size with
    | error err => simp [dp_oneof, hk] at hstep
    | ok n =>
      simp only [dp_oneof, hk, Except.ok.injEq] at hstep
      obtain ⟨rfl⟩ := hstep
      simp only [lookup2_insertEntry]
      rw [if_neg (fun hc => hr ⟨hc.1.symm, hc.2.symm⟩)]
      exact ⟨e, he, hd⟩
  | numeric p vsid voff size mn mx =>
    change dp_numeric st p vsid voff size mn mx = .ok st1 at hstep
    cases hk : pyIntDec size with
    | error err => simp [dp_numeric, hk] at hstep
    | ok n =>
      cases hmn : pyIntHex mn with
      | error err => simp [dp_numeric, hk, hmn] at hstep
      | ok vmn =>
        cases hmx : pyIntHex mx with
        | error err => simp [dp_numeric, hk, hmn, hmx] at hstep
        | ok vmx =>
          simp only [dp_numeric, hk, hmn, hmx, Except.ok.injEq] at hstep
          obtain ⟨rfl⟩ := hstep
          simp only [lookup2_insertEntry]
          rw [if_neg (fun hc => hr ⟨hc.1.symm, hc.2.symm⟩)]
          exact ⟨e, he, hd⟩
  | checkbox p vsid voff dflt =>
    have h1 : dp_checkbox st p vsid voff dflt = st1 := by
      simpa [dp_step] using hstep
    subst h1
    simp only [dp_checkbox, lookup2_insertEntry]
    by_cases hc : s = pyStr (pyLookup st.varstores vsid) ∧ o = "0x" ++ voff
    · rw [if_pos hc]
      exact ⟨_, rfl, by simp⟩
    · rw [if_neg hc]
      exact ⟨e, he, hd⟩
  | oneofOption opt val isDef =>
    change dp_oneofOption st opt val isDef = .ok st1 at hstep
    unfold dp_oneofOption at hstep
    by_cases hg : st.last_match = some "oneof"
    · rw [if_pos hg] at hstep
      cases hk : pyIntDec val with
      | error err => rw [hk] at hstep; cases hstep
      | ok v =>
        rw [hk] at hstep
        simp only [Except.ok.injEq] at hstep
        obtain ⟨rfl⟩ := hstep
        cases hvs : st.oneof_varstore with
        | none => exact ⟨e, he, hd⟩
        | some s2 =>
          cases hvo : st.oneof_varoffset with
          | none => exact ⟨e, he, hd⟩
          | some o2 =>
            simp only [lookup2_setEntry]
            cases hl : lookup2 st.settings s2 o2 with
            | none => exact ⟨e, he, hd⟩
            | some e0 =>
              simp only [lookup2_setEntry]
              by_cases hc : s = s2 ∧ o = o2
              · rw [if_pos hc]
                refine ⟨_, rfl, ?_⟩
                have he0 : e0 = e := by
                  rw [← hc.1, ← hc.2] at hl
                  rw [he] at hl
                  exact (Option.some_inj.mp hl).symm
                rw [he0, option_entry_default _ _ _ _ hd]
                exact hd
              · rw [if_neg hc]
                exact ⟨e, he, hd⟩
    · rw [if_neg hg] at hstep
      obtain ⟨rfl⟩ := hstep
      exact ⟨e, he, hd⟩
  | defaultRec val =>
    change dp_defaultRec st val = .ok st1 at hstep
    unfold dp_defaultRec at hstep
    by_cases hg : st.last_match = some "oneof"
    · rw [if_pos hg] at hstep
      by_cases hch : st.child_match ≠ none
      · rw [if_pos hch] at hstep
        cases hk : pyIntDec val with
        | error err => rw [hk] at hstep; cases hstep
        | ok v =>
          rw [hk] at hstep
          cases hvs : st.oneof_varstore with
          | none =>
            simp only [hvs, Except.ok.injEq] at hstep
            obtain ⟨rfl⟩ := hstep
            exact ⟨e, he, hd⟩
          | some s2 =>
            cases hvo : st.oneof_varoffset with
            | none =>
              simp only [hvs, hvo, Except.ok.injEq] at hstep
              obtain ⟨rfl⟩ := hstep
              exact ⟨e, he, hd⟩
            | some o2 =>
              simp only [hvs, hvo] at hstep
              cases hl : lookup2 st.settings s2 o2 with
              | none =>
                simp only [hl, Except.ok.injEq] at hstep
                obtain ⟨rfl⟩ := hstep
                exact ⟨e, he, hd⟩
              | some e0 =>
                simp only [hl] at hstep
                cases hopts : e0.options with
                | none =>
                  simp only [hopts] at hstep
                  exact Except.noConfusion hstep
                | some opts =>
                  simp only [hopts] at hstep
                  cases hf : opts.find? (fun kv => kv.2 == pyHexUpper v) with
                  | none =>
                    simp only [hf, Except.ok.injEq] at hstep
                    obtain ⟨rfl⟩ := hstep
                    exact ⟨e, he, hd⟩
                  | some kv =>
                    simp only [hf, Except.ok.injEq] at hstep
                    obtain ⟨rfl⟩ := hstep
                    simp only [lookup2_setEntry]
                    by_cases hc : s = s2 ∧ o = o2
                    · rw [if_pos hc]
                      exact ⟨_, rfl, by simp⟩
                    · rw [if_neg hc]
                      exact ⟨e, he, hd⟩
      · rw [if_neg hch] at hstep
        cases hk : pyIntDec val with
        | error err => rw [hk] at hstep; cases hstep
        | ok v =>
          rw [hk] at hstep
          simp only [Except.ok.injEq] at hstep
          obtain ⟨rfl⟩ := hstep
          exact ⟨e, he, hd⟩
    · rw [if_neg hg] at hstep
      by_cases hn : st.last_match = some "numeric"
      · rw [if_pos hn] at hstep
        cases hk : pyIntDec val with
        | error err => rw [hk] at hstep; cases hstep
        | ok v =>
          rw [hk] at hstep
          cases hvs : st.numeric_varstore with
          | none =>
            simp only [hvs, Except.ok.injEq] at hstep
            obtain ⟨rfl⟩ := hstep
            exact ⟨e, he, hd⟩
          | some s2 =>
            cases hvo : st.numeric_varoffset with
            | none =>
              simp only [hvs, hvo, Except.ok.injEq] at hstep
              obtain ⟨rfl⟩ := hstep
              exact ⟨e, he, hd⟩
            | some o2 =>
              simp only [hvs, hvo] at hstep
              cases hl : lookup2 st.settings s2 o2 with
              | none =>
                simp only [hl, Except.ok.injEq] at hstep
                obtain ⟨rfl⟩ := hstep
                exact ⟨e, he, hd⟩
              | some e0 =>
                simp only [hl, Except.ok.injEq] at hstep
                obtain ⟨rfl⟩ := hstep
                simp only [lookup2_setEntry]
                by_cases hc : s = s2 ∧ o = o2
                · rw [if_pos hc]
                  exact ⟨_, rfl, by simp⟩
                · rw [if_neg hc]
                  exact ⟨e, he, hd⟩
      · rw [if_neg hn] at hstep
        obtain ⟨rfl⟩ := hstep
        exact ⟨e, he, hd⟩

/-- The state used in the C8 witness. -/
def st_c8 : DPState :=
  { settings := [("None", [("0x10",
      { type := "checkbox", name := "C", default := some (.str "Enabled") })])] }

theorem default_preserved_unless_reopened_witness :
    ∃ e1, lookup2 (dp_varstore st_c8 "2" "X").settings "None" "0x10" = some e1 ∧
      e1.default ≠ none :=
  default_preserved_unless_reopened st_c8 (dp_varstore st_c8 "2" "X")
    (.varstore "2" "X") "None" "0x10"
    { type := "checkbox", name := "C", default := some (.str "Enabled") }
    rfl rfl (by simp) (by simp [reopens_key])

/-- Whether a classified record is a one-of option record. -/
def isOptionRecord : Record → Bool
  | .oneofOption _ _ _ => true
  | _ => false

/-- The VarOffset capture of a question record (one-of, numeric or checkbox),
`none` for the other record kinds. A question record writes the model at the
key built from this capture. -/
def question_offset : Record → Option String
  | .oneof _ _ voff _ => some voff
  | .numeric _ _ voff _ _ _ => some voff
  | .checkbox _ _ voff _ => some voff
  | _ => none

/-- The invariant behind C10: the entry at `(s, o)` is a bare one-of entry
(no options, no default), an open one-of question has consumed no option yet,
and an open numeric question does not point at offset `o`. -/
def bare_inv (s o : String) (st : DPState) : Prop :=
  (∃ e, lookup2 st.settings s o = some e ∧ e.type = "oneof" ∧
    e.options = none ∧ e.default = none)
  ∧ (st.last_match = some "oneof" → st.child_match = none)
  ∧ (st.last_match = some "numeric" → st.numeric_varoffset ≠ some o)

theorem bare_inv_step (s voff : String) (st st1 : DPState) (r : Record)
    (hstep : dp_step st r = .ok st1)
    (hinv : bare_inv s ("0x" ++ voff) st)
    (hopt : isOptionRecord r = false)
    (hoff : question_offset r ≠ some voff) :
    bare_inv s ("0x" ++ voff) st1 := by
  obtain ⟨⟨e, he, ht, hob, hdb⟩, h2, h3⟩ := hinv
  cases r with
  | varstore id name =>
    have hst : dp_varstore st id name = st1 := by
      simpa [dp_step] using hstep
    subst hst
    exact ⟨⟨e, he, ht, hob, hdb⟩, h2, h3⟩
  | oneof p vsid voff2 size =>
    have hne : voff2 ≠ voff := fun hh => hoff (congrArg some hh)
    change dp_oneof st p vsid voff2 size = .ok st1 at hstep
    cases hk : pyIntDec size with
    | error err => simp [dp_oneof, hk] at hstep
    | ok n =>
      simp only [dp_oneof, hk, Except.ok.injEq] at hstep
      obtain ⟨rfl⟩ := hstep
      refine ⟨?_, fun _ => rfl, fun hh => by simp at hh⟩
      refine ⟨e, ?_, ht, hob, hdb⟩
      simp only [lookup2_insertEntry]
      rw [if_neg (fun hc => hne (string_append_left_cancel hc.2).symm)]
      exact he
  | numeric p vsid voff2 size mn mx =>
    have hne : voff2 ≠ voff := fun hh => hoff (congrArg some hh)
    change dp_numeric st p vsid voff2 size mn mx = .ok st1 at hstep
    cases hk : pyIntDec size with
    | error err => simp [dp_numeric, hk] at hstep
    | ok n =>
      cases hmn : pyIntHex mn with
      | error err => simp [dp_numeric, hk, hmn] at hstep
      | ok vmn =>
        cases hmx : pyIntHex mx with
        | error err => simp [dp_numeric, hk, hmn, hmx] at hstep
        | ok vmx =>
          simp only [dp_numeric, hk, hmn, hmx, Except.ok.injEq] at hstep
          obtain ⟨rfl⟩ := hstep
          refine ⟨?_, fun hh => by simp at hh, ?_⟩
          · refine ⟨e, ?_, ht, hob, hdb⟩
            simp only [lookup2_insertEntry]
            rw [if_neg (fun hc => hne (string_append_left_cancel hc.2).symm)]
            exact he
          · intro _ hh
            simp only [Option.some_inj] at hh
            exact hne (string_append_left_cancel hh)
  | checkbox p vsid voff2 dflt =>
    have hne : voff2 ≠ voff := fun hh => hoff (congrArg some hh)
    have hst : dp_checkbox st p vsid voff2 dflt = st1 := by
      simpa [dp_step] using hstep
    subst hst
    refine ⟨?_, fun hh => by simp [dp_checkbox] at hh, fun hh => by simp [dp_checkbox] at hh⟩
    refine ⟨e, ?_, ht, hob, hdb⟩
    simp only [dp_checkbox, lookup2_insertEntry]
    rw [if_neg (fun hc => hne (string_append_left_cancel hc.2).symm)]
    exact he
  | oneofOption opt val isDef => simp [isOptionRecord] at hopt
  | defaultRec val =>
    change dp_defaultRec st val = .ok st1 at hstep
    unfold dp_defaultRec at hstep
    by_cases hg : st.last_match = some "oneof"
    · rw [if_pos hg] at hstep
      by_cases hch : st.child_match ≠ none
      · exact absurd (h2 hg) hch
      · rw [if_neg hch] at hstep
        cases hk : pyIntDec val with
        | error err => rw [hk] at hstep; cases hstep
        | ok v =>
          rw [hk] at hstep
          simp only [Except.ok.injEq] at hstep
          obtain ⟨rfl⟩ := hstep
          exact ⟨⟨e, he, ht, hob, hdb⟩, fun _ => h2 hg, h3⟩
    · rw [if_neg hg] at hstep
      by_cases hn : st.last_match = some "numeric"
      · rw [if_pos hn] at hstep
        cases hk : pyIntDec val with
        | error err => rw [hk] at hstep; cases hstep
        | ok v =>
          rw [hk] at hstep
          cases hvs : st.numeric_varstore with
          | none =>
            simp only [hvs, Except.ok.injEq] at hstep
            obtain ⟨rfl⟩ := hstep
            exact ⟨⟨e, he, ht, hob, hdb⟩, h2, h3⟩
          | some s2 =>
            cases hvo : st.numeric_varoffset with
            | none =>
              simp only [hvs, hvo, Except.ok.injEq] at hstep
              obtain ⟨rfl⟩ := hstep
              refine ⟨⟨e, he, ht, hob, hdb⟩, h2, ?_⟩
              intro _ hh
              simp at hh
            | some o2 =>
              have ho2 : o2 ≠ "0x" ++ voff := fun hh => (h3 hn) (by rw [hvo, hh])
              simp only [hvs, hvo] at hstep
              cases hl : lookup2 st.settings s2 o2 with
              | none =>
                simp only [hl, Except.ok.injEq] at hstep
                obtain ⟨rfl⟩ := hstep
                refine ⟨⟨e, he, ht, hob, hdb⟩, h2, ?_⟩
                intro _ hh
                simp only [Option.some_inj] at hh
                exact ho2 hh
              | some e0 =>
                simp only [hl, Except.ok.injEq] at hstep
                obtain ⟨rfl⟩ := hstep
                refine ⟨?_, h2, ?_⟩
                · refine ⟨e, ?_, ht, hob, hdb⟩
                  simp only [lookup2_setEntry]
                  rw [if_neg (fun hc => ho2 hc.2.symm)]
                  exact he
                · intro _ hh
                  simp only [Option.some_inj] at hh
                  exact ho2 hh
      · rw [if_neg hn] at hstep
        obtain ⟨rfl⟩ := hstep
        exact ⟨⟨e, he, ht, hob, hdb⟩, h2, h3⟩

theorem bare_inv_fold (s voff : String) (st stF : DPState) (post : List Record)
    (h : dp_fold st post = .ok stF)
    (hinv : bare_inv s ("0x" ++ voff) st)
    (hopt : ∀ r ∈ post, isOptionRecord r = false)
    (hoff : ∀ r ∈ post, question_offset r ≠ some voff) :
    bare_inv s ("0x" ++ voff) stF := by
  induction post generalizing st with
  | nil =>
    simp only [dp_fold, Except.ok.injEq] at h
    subst h
    exact hinv
  | cons r rest ih =>
    unfold dp_fold at h
    cases hs : dp_step st r with
    | error err => rw [hs] at h; cases h
    | ok st1 =>
      rw [hs] at h
      exact ih st1 h
        (bare_inv_step s voff st st1 r hs hinv
          (hopt r (List.mem_cons_self _ _)) (hoff r (List.mem_cons_self _ _)))
        (fun x hx => hopt x (List.mem_cons_of_mem _ hx))
        (fun x hx => hoff x (List.mem_cons_of_mem _ hx))

/-- C10 counterexample: a one-of question record followed by no option record
does not always leave a default-less entry at its key: a later checkbox
record at the same key replaces the entry with one carrying a default. -/
theorem bare_oneof_counterexample :
    (dp_model [Record.oneof "O" "1" "10" "8",
        Record.checkbox "C" "1" "10" "Enabled"]).map
        (fun m => (lookup2 m "None" "0x10").map (fun e => e.default)) =
      .ok (some (some (.str "Enabled"))) := rfl

/-- C10 (amended): a one-of question record creates its entry with only the
type, name and size keys, and when no option record and no question record
re-using the same VarOffset capture follows it, the final model entry at its
key still lacks both the options mapping and the default. -/
theorem bare_oneof_stays_bare (st st2 stF : DPState)
    (prompt vsid voff size : String) (post : List Record)
    (h1 : dp_step st (.oneof prompt vsid voff size) = .ok st2)
    (h2 : dp_fold st2 post = .ok stF)
    (hopt : ∀ r ∈ post, isOptionRecord r = false)
    (hoff : ∀ r ∈ post, question_offset r ≠ some voff) :
    ∃ e, lookup2 stF.settings (pyStr (pyLookup st.varstores vsid))
        ("0x" ++ voff) = some e ∧
      e.type = "oneof" ∧ e.options = none ∧ e.default = none := by
  have hinv2 : bare_inv (pyStr (pyLookup st.varstores vsid)) ("0x" ++ voff) st2 := by
    change dp_oneof st prompt vsid voff size = .ok st2 at h1
    cases hk : pyIntDec size with
    | error err => simp [dp_oneof, hk] at h1
    | ok n =>
      simp only [dp_oneof, hk, Except.ok.injEq] at h1
      obtain ⟨rfl⟩ := h1
      exact ⟨⟨_, lookup2_insertEntry_self _ _ _ _, rfl, rfl, rfl⟩,
        fun _ => rfl, fun hh => by simp at hh⟩
  exact (bare_inv_fold _ _ _ _ _ h2 hinv2 hopt hoff).1

/-- The state right after the one-of record in the C10 witness. -/
def c10_st2 : DPState :=
  { settings := [("None", [("0x10",
      { type := "oneof", name := "O", size := some "0x1" })])]
    oneof_name := some "O"
    oneof_varstore := some "None"
    oneof_varoffset := some "0x10"
    last_match := some "oneof" }

/-- The records processed after the one-of record in the C10 witness. -/
def c10_post : List Record :=
  [Record.checkbox "C" "1" "20" "Enabled", Record.defaultRec "5"]

/-- The final state in the C10 witness. -/
def c10_stF : DPState :=
  { settings := [("None",
      [("0x10", { type := "oneof", name := "O", size := some "0x1" }),
       ("0x20", { type := "checkbox", name := "C",
                  default := some (PyVal.str "Enabled") })])]
    oneof_name := some "O"
    oneof_varstore := some "None"
    oneof_varoffset := some "0x10"
    last_match := some "checkbox" }

theorem bare_oneof_stays_bare_witness :
    ∃ e, lookup2 c10_stF.settings (pyStr (pyLookup dp_init.varstores "1"))
        ("0x" ++ "10") = some e ∧
      e.type = "oneof" ∧ e.options = none ∧ e.default = none :=
  bare_oneof_stays_bare dp_init c10_st2 c10_stF "O" "1" "10" "8" c10_post
    rfl rfl (by decide) (by decide)
